import Mathlib

/-!
# Verification of the Dinodial restaurant voice-agent backend

Shallow embedding of the backend of the Dinodial-ai repository
(`backend/csv_utils.py`, `backend/client_handler.py`, `backend/scheduler.py`,
`backend/phone_handler.py`, `backend/app.py`) together with theorems settling
the frozen claims C1-C10.

Modelling conventions:
* A customer record (a Python `dict` row of the CSV store) is an association
  list `Rec` with first-key-wins lookup; the store is the list of rows that
  `read_customers` returns.  Writing the store through `csv.DictWriter`
  restricted to `CSV_COLUMNS` and reading it back is the projection
  `projectRow`.
* Wall-clock time is a rational number of minutes; `datetime.fromisoformat`
  (a Python standard-library leaf) is abstracted as a parameter
  `parse : String → Option ℚ`, `none` modelling `ValueError`/`AttributeError`.
* Network I/O (the Dinodial call provider, SMTP) is abstracted by boolean /
  functional oracles; a call of an adapter is recorded as an explicit effect
  so that theorems can speak about which external interactions happen.
* JSON payloads from the call provider are trees `Val` with string leaves;
  `dict.get` with its defaults is embedded exactly, and the places where the
  Python code would raise `AttributeError` (calling `.get` on a string) are
  modelled in an `Except` monad that the surrounding `try/except` catches.
-/

/-- `backend/csv_utils.py` line 8: the schema columns of the CSV store. -/
def CSV_COLUMNS : List String :=
  ["customer_id", "name", "mobile", "email", "timestamp", "admin_token"]

/-- One customer row: a Python dict as an association list (first key wins). -/
abbrev Rec := List (String × String)

/-- The customer store: what `read_customers` returns. -/
abbrev Store := List Rec

/-- Python `row.get(k)` / `row[k]` presence: first binding of `k`. -/
def getField (c : Rec) (k : String) : Option String :=
  (c.find? (fun p => p.1 == k)).map (·.2)

/-- Python `row.get(k, d)`. -/
def getD (c : Rec) (k d : String) : String :=
  (getField c k).getD d

/-- Python `dict` assignment `row[k] = v` (update in place, else append). -/
def setField (c : Rec) (k v : String) : Rec :=
  if c.any (fun p => p.1 == k) then
    c.map (fun p => if p.1 == k then (k, v) else p)
  else
    c ++ [(k, v)]

/-- `write_customers` then `read_customers` for a single row
(`csv_utils.py` lines 44-51): only `CSV_COLUMNS` survive, missing columns
become `""`. -/
def projectRow (c : Rec) : Rec :=
  CSV_COLUMNS.map (fun k => (k, getD c k ""))

/-- `csv_utils.write_customers` (lines 41-53) as a store transformer: the file
after the write parses back to the projected rows. -/
def writeCustomers (cs : List Rec) : Store :=
  cs.map projectRow

/-- `csv_utils.get_customer_by_id` (lines 85-90): first row whose
`customer_id` field equals the argument. -/
def getCustomerById (s : Store) (customer_id : String) : Option Rec :=
  s.find? (fun c => getField c "customer_id" == some customer_id)

/-- `csv_utils.get_customers_by_status` (lines 97-100). -/
def getCustomersByStatus (s : Store) (status : String) : List Rec :=
  s.filter (fun c => getD c "status" "" == status)

/-- `csv_utils.get_customers_for_arrival_check` (lines 103-119): rows whose
`expected_arrival_time` is non-empty, parses, and is strictly before `now`. -/
def getCustomersForArrivalCheck (s : Store) (now : ℚ)
    (parse : String → Option ℚ) : List Rec :=
  s.filter (fun c =>
    let e := getD c "expected_arrival_time" ""
    if e == "" then false
    else match parse e with
      | some t => decide (t < now)
      | none => false)

/-- `csv_utils.get_customer_by_mobile` normalisation (line 126): strip
`+ - space ( )`. -/
def normalizeMobile (s : String) : String :=
  String.mk (s.toList.filter (fun ch => !(['+', '-', ' ', '(', ')'].contains ch)))

/-- `csv_utils.get_customer_by_mobile` (lines 122-131). -/
def getCustomerByMobile (s : Store) (mobile : String) : Option Rec :=
  s.find? (fun c => normalizeMobile (getD c "mobile" "") == normalizeMobile mobile)

/-- Python `customer.update(updates)` on one row. -/
def updateRow (updates : List (String × String)) (c : Rec) : Rec :=
  updates.foldl (fun acc p => setField acc p.1 p.2) c

/-- The `for customer in customers: if ... : customer.update(updates); break`
loop of `update_customer`: update the first row whose `customer_id` matches;
`none` when no row matches. -/
def updateFirst (customer_id : String) (updates : List (String × String)) :
    List Rec → Option (List Rec)
  | [] => none
  | c :: rest =>
    if getField c "customer_id" == some customer_id then
      some (updateRow updates c :: rest)
    else
      match updateFirst customer_id updates rest with
      | some rest1 => some (c :: rest1)
      | none => none

/-- `csv_utils.update_customer` (lines 134-148): update the first matching row
in memory, and when a match was found rewrite the whole file (projecting every
row to the schema columns).  Returns the `updated` flag and the new store. -/
def updateCustomer (s : Store) (customer_id : String) (updates : List (String × String)) :
    Bool × Store :=
  match updateFirst customer_id updates s with
  | none => (false, s)
  | some s1 => (true, writeCustomers s1)

/-- `csv_utils.add_customer` (lines 60-82).  `genId` stands for the randomly
generated `RES#####` id and `nowIso` for `datetime.now().isoformat()`, both
impure leaves passed in as parameters.  Returns the id and the new store. -/
def addCustomer (s : Store) (name mobile email timestamp customer_id admin_token : String)
    (genId nowIso : String) : String × Store :=
  let cid := if customer_id == "" then genId else customer_id
  let ts := if timestamp == "" then nowIso else timestamp
  let row : Rec :=
    [("customer_id", cid), ("name", name), ("mobile", mobile),
     ("email", email), ("timestamp", ts), ("admin_token", admin_token)]
  (cid, writeCustomers (s ++ [row]))

/-!
## `backend/client_handler.py` — flow engine (call triggers and webhook)
-/

/-- `client_handler.trigger_call` (lines 12-63).  `httpOk` is the network
oracle for the one `POST /make-call/` attempt (`true` = HTTP 200); the
`nowIso` parameter stands for `datetime.now().isoformat()`.  The call-context
payload does not influence control flow and is not modelled.  Returns the
`success` flag and the store (the `last_call_time` stamp is written before the
HTTP request, whatever its outcome). -/
def triggerCall (s : Store) (customer_id : String) (httpOk : Bool) (nowIso : String) :
    Bool × Store :=
  match getCustomerById s customer_id with
  | none => (false, s)
  | some c =>
    if getD c "mobile" "" == "" then (false, s)
    else
      let s1 := (updateCustomer s customer_id [("last_call_time", nowIso)]).2
      (httpOk, s1)

/-- `client_handler.trigger_order_booking_call` (lines 66-104). -/
def triggerOrderBookingCall (s : Store) (customer_id : String) (httpOk : Bool)
    (nowIso : String) : Bool × Store :=
  match getCustomerById s customer_id with
  | none => (false, s)
  | some c =>
    if getD c "status" "" != "new" then (false, s)
    else if getD c "mobile" "" == "" then (false, s)
    else
      let r := triggerCall s customer_id httpOk nowIso
      if r.1 then (true, (updateCustomer r.2 customer_id [("status", "called")]).2)
      else (false, r.2)

/-- `client_handler.trigger_arrival_confirmation_call` (lines 107-136). -/
def triggerArrivalConfirmationCall (s : Store) (customer_id : String) (httpOk : Bool)
    (nowIso : String) : Bool × Store :=
  match getCustomerById s customer_id with
  | none => (false, s)
  | some c =>
    if getD c "mobile" "" == "" then (false, s)
    else triggerCall s customer_id httpOk nowIso

/-- `client_handler.trigger_missed_customer_recovery_call` (lines 139-169). -/
def triggerMissedCustomerRecoveryCall (s : Store) (customer_id : String) (httpOk : Bool)
    (nowIso : String) : Bool × Store :=
  match getCustomerById s customer_id with
  | none => (false, s)
  | some c =>
    if getD c "status" "" != "no_show" then (false, s)
    else if getD c "mobile" "" == "" then (false, s)
    else triggerCall s customer_id httpOk nowIso

/-- Python `str.lower()` on the ASCII strings the code compares
(`String.toLower` itself is not kernel-reducible, so the embedding lowers the
character list directly; on ASCII the two agree). -/
def pyLower (s : String) : String :=
  String.mk (s.data.map Char.toLower)

/-- Result of `client_handler.handle_call_webhook`: `success` flag plus the
optional `error` string. -/
structure WebhookResult where
  success : Bool
  error : Option String := none
deriving DecidableEq, Repr

/-- `client_handler.handle_call_webhook` (lines 172-229).  `customer_id` and
`flow` are `webhook_data.get(...)` (`none` = key absent), `result` is the
`result` dict. -/
def handleCallWebhook (customer_id flow : Option String) (result : List (String × String))
    (s : Store) : WebhookResult × Store :=
  match customer_id with
  | none => ({ success := false, error := some "Missing customer_id" }, s)
  | some cid =>
    if cid == "" then ({ success := false, error := some "Missing customer_id" }, s)
    else
      match getCustomerById s cid with
      | none => ({ success := false, error := some "Customer not found" }, s)
      | some _ =>
        if flow == some "order_booking" then
          let upd0 := [("status", "order_confirmed")]
          let upd1 := match getField result "order_details" with
            | some v => upd0 ++ [("order_details", v)]
            | none => upd0
          let upd2 := match getField result "expected_arrival_time" with
            | some v => upd1 ++ [("expected_arrival_time", v)]
            | none => upd1
          ({ success := true }, (updateCustomer s cid upd2).2)
        else if flow == some "arrival_confirmation" then
          let arrival_status := pyLower (getD result "arrival_status" "")
          if arrival_status == "arrived" then
            ({ success := true },
             (updateCustomer s cid [("arrival_confirmed", "true"), ("status", "arrived")]).2)
          else if arrival_status == "on the way" then
            ({ success := true }, s)
          else if arrival_status == "not coming" ∨ arrival_status == "cancel" then
            ({ success := true }, (updateCustomer s cid [("status", "no_show")]).2)
          else ({ success := true }, s)
        else if flow == some "missed_customer_recovery" then
          let action := pyLower (getD result "action" "")
          if action == "reschedule" then
            let upd0 := [("status", "order_confirmed")]
            let upd1 := match getField result "new_arrival_time" with
              | some v => upd0 ++ [("expected_arrival_time", v)]
              | none => upd0
            ({ success := true }, (updateCustomer s cid upd1).2)
          else if action == "takeaway" then
            let upd0 := [("status", "resolved")]
            let upd1 := match getField result "takeaway_order" with
              | some v => upd0 ++ [("order_details", v)]
              | none => upd0
            ({ success := true }, (updateCustomer s cid upd1).2)
          else if action == "cancel" then
            ({ success := true }, (updateCustomer s cid [("status", "resolved")]).2)
          else ({ success := true }, s)
        else ({ success := true }, s)

/-!
## `backend/scheduler.py` — the scan job `scan_and_trigger_calls`

A trigger event records which flow was requested for which customer id (one
event per invocation of a `trigger_*_call` function).  The provider oracle
`http : Nat → Bool` gives the outcome of the HTTP attempt of the k-th trigger
invocation of the tick.  Wall-clock time is frozen at `now` for the tick.
-/

/-- The `should_call` gate of the no-show pass (`scheduler.py` lines 48-56):
call unless `last_call_time` is present, parses, and is less than 30 minutes
old. -/
def noShowGate (lastCall : String) (now : ℚ) (parse : String → Option ℚ) : Bool :=
  if lastCall == "" then true
  else match parse lastCall with
    | some t => if now - t < 30 then false else true
    | none => true

/-- The selection condition of the new-customer pass (`scheduler.py`
line 24): a non-empty `customer_id`. -/
def newCond (c : Rec) : Bool :=
  !(getD c "customer_id" "" == "")

/-- The selection condition of the arrival pass (`scheduler.py` lines
32-37): non-empty id, arrival not confirmed, status `order_confirmed` or
`called`. -/
def arrivalCond (c : Rec) : Bool :=
  !(getD c "customer_id" "" == "")
    && !(pyLower (getD c "arrival_confirmed" "false") == "true")
    && ((getD c "status" "" == "order_confirmed") || (getD c "status" "" == "called"))

/-- The selection condition of the no-show pass (`scheduler.py` lines
45-58): non-empty id and the `should_call` gate. -/
def noShowCond (now : ℚ) (parse : String → Option ℚ) (c : Rec) : Bool :=
  !(getD c "customer_id" "" == "") && noShowGate (getD c "last_call_time" "") now parse

/-- Pass 1 of the scan tick (`scheduler.py` lines 21-28): one order-booking
trigger per snapshot row with a non-empty `customer_id`. -/
def scanPassNew (http : Nat → Bool) (nowIso : String) :
    Store → Nat → List Rec → Store × (List (String × String) × Nat)
  | s, k, [] => (s, ([], k))
  | s, k, c :: rest =>
    if newCond c then
      let s1 := (triggerOrderBookingCall s (getD c "customer_id" "") (http k) nowIso).2
      let r := scanPassNew http nowIso s1 (k + 1) rest
      (r.1, (("order_booking", getD c "customer_id" "") :: r.2.1, r.2.2))
    else scanPassNew http nowIso s k rest

/-- Pass 2 of the scan tick (`scheduler.py` lines 30-41): arrival-confirmation
triggers for overdue, unconfirmed customers in status `order_confirmed` or
`called`. -/
def scanPassArrival (http : Nat → Bool) (nowIso : String) :
    Store → Nat → List Rec → Store × (List (String × String) × Nat)
  | s, k, [] => (s, ([], k))
  | s, k, c :: rest =>
    if arrivalCond c then
      let s1 := (triggerArrivalConfirmationCall s (getD c "customer_id" "") (http k) nowIso).2
      let r := scanPassArrival http nowIso s1 (k + 1) rest
      (r.1, (("arrival_confirmation", getD c "customer_id" "") :: r.2.1, r.2.2))
    else scanPassArrival http nowIso s k rest

/-- Pass 3 of the scan tick (`scheduler.py` lines 43-62): recovery triggers
for no-show customers passing the 30-minute gate. -/
def scanPassNoShow (http : Nat → Bool) (nowIso : String) (now : ℚ)
    (parse : String → Option ℚ) :
    Store → Nat → List Rec → Store × (List (String × String) × Nat)
  | s, k, [] => (s, ([], k))
  | s, k, c :: rest =>
    if noShowCond now parse c then
      let s1 := (triggerMissedCustomerRecoveryCall s (getD c "customer_id" "") (http k) nowIso).2
      let r := scanPassNoShow http nowIso now parse s1 (k + 1) rest
      (r.1, (("missed_customer_recovery", getD c "customer_id" "") :: r.2.1, r.2.2))
    else scanPassNoShow http nowIso now parse s k rest

/-- `scheduler.scan_and_trigger_calls` (lines 18-62): one tick of the scan
job.  Each pass re-reads the store (whose contents earlier triggers may have
rewritten) and then iterates over its snapshot.  Returns the final store and
the trigger events of the tick, in order. -/
def scanTick (s : Store) (now : ℚ) (parse : String → Option ℚ) (http : Nat → Bool)
    (nowIso : String) : Store × List (String × String) :=
  let p1 := scanPassNew http nowIso s 0 (getCustomersByStatus s "new")
  let p2 := scanPassArrival http nowIso p1.1 p1.2.2
    (getCustomersForArrivalCheck p1.1 now parse)
  let p3 := scanPassNoShow http nowIso now parse p2.1 p2.2.2
    (getCustomersByStatus p2.1 "no_show")
  (p3.1, p1.2.1 ++ p2.2.1 ++ p3.2.1)

/-!
## `backend/phone_handler.py` — payload model and `send_reservation_email`
-/

/-- A JSON-ish value from the call provider: a string leaf or an object.
(Numbers/booleans/arrays do not occur on the paths the code reads; a string
leaf stands for any non-dict value.) -/
inductive Val where
  | s : String → Val
  | obj : List (String × Val) → Val

/-- An object payload (a Python dict). -/
abbrev Obj := List (String × Val)

/-- Python `d.get(k)` on an object: first binding of `k`. -/
def lookupV (o : Obj) (k : String) : Option Val :=
  (o.find? (fun p => p.1 == k)).map (·.2)

/-- Python truthiness of a modelled value (`""` and `{}` are falsy). -/
def truthy : Val → Bool
  | .s x => x != ""
  | .obj o => !o.isEmpty

/-- Python `d.get(k) or fallback`. -/
def orV (v : Option Val) (fallback : Val) : Val :=
  match v with
  | some x => if truthy x then x else fallback
  | none => fallback

/-- Python `d.get(k) == lit` for a string literal (any non-string, or a
missing key, compares unequal). -/
def optIsStr (v : Option Val) (lit : String) : Bool :=
  match v with
  | some (.s x) => x == lit
  | _ => false

/-- `v == lit` for a value in hand. -/
def isStrVal (v : Val) (lit : String) : Bool :=
  match v with
  | .s x => x == lit
  | .obj _ => false

/-- Python `d.get(k, {})` followed by use as a dict: a missing key defaults to
`{}`; a string value raises `AttributeError` at the next `.get` (modelled as
`Except.error`). -/
def objGetD (o : Obj) (k : String) : Except String Obj :=
  match lookupV o k with
  | none => .ok []
  | some (.obj x) => .ok x
  | some (.s _) => .error "AttributeError"

/-- Python `str(...)` of a leaf for message interpolation; `"<object>"` stands
in for the rendering of a dict (never inspected by any claim). -/
def rendV : Val → String
  | .s x => x
  | .obj _ => "<object>"

/-- One email handed to the SMTP transport of `_send_email`
(`phone_handler.py` lines 206-215). -/
structure EmailMsg where
  recipient : Val
  subject : String
  body : String

/-- The result dict of `_send_email` / `send_reservation_email`. -/
structure SendResult where
  success : Bool
  message : Option String := none
  error : Option String := none
deriving DecidableEq, Repr

/-- `phone_handler._send_email` (lines 174-220).  An empty recipient returns
before any network contact; otherwise the SMTP transport is invoked (recorded
as an effect) and `smtpOk` decides between the success dict and the caught
exception dict. -/
def sendEmailAdapter (email : Val) (subject body : String) (smtpOk : Bool) :
    SendResult × List EmailMsg :=
  if ¬ truthy email then
    ({ success := false, message := some "Email address is required" }, [])
  else if smtpOk then
    ({ success := true, message := some "Email sent" }, [⟨email, subject, body⟩])
  else
    ({ success := false, error := some "smtp error" }, [⟨email, subject, body⟩])

/-- Body of the confirmation email (lines 313, 332). -/
def confirmBody (name date time people : String) : String :=
  "Hi " ++ name ++ ",\n\nYour table reservation at Dino Restaurant is confirmed:\n\nDate: "
    ++ date ++ "\nTime: " ++ time ++ "\nNumber of guests: " ++ people
    ++ "\n\nWe look forward to serving you!\n\nBest regards,\nDino Restaurant Team"

/-- Body of the wait email (line 264). -/
def waitBody (name : String) : String :=
  "Hi " ++ name
    ++ ",\n\nThank you for your call. We are currently processing your order/reservation. Please wait while we confirm the details.\n\nWe will send you a confirmation email shortly.\n\nBest regards,\nDino Restaurant Team"

/-- Lines 248-257: when the caller passed no email and the payload has a phone
number, look the customer up by mobile and take their stored email (and name,
when no name was passed).  A non-string phone number makes the lookup raise,
which the inner `try/except` swallows. -/
def topFill (emailP nameP : String) (phone : Val) (store : Store) : Val × String :=
  if emailP == "" ∧ truthy phone then
    match phone with
    | .s p =>
      match getCustomerByMobile store p with
      | some cust =>
        if getD cust "email" "" != "" then
          (.s (getD cust "email" ""), if nameP == "" then getD cust "name" nameP else nameP)
        else (.s emailP, nameP)
      | none => (.s emailP, nameP)
    | .obj _ => (.s emailP, nameP)
  else (.s emailP, nameP)

/-- Lines 294-302: the second by-mobile lookup inside the completed branch
(same pattern as `topFill`, but on values that may come from the payload). -/
def secondFill (email2 name2 : Val) (phone : Val) (store : Store) : Val × Val :=
  if ¬ truthy email2 ∧ truthy phone then
    match phone with
    | .s p =>
      match getCustomerByMobile store p with
      | some cust =>
        if getD cust "email" "" != "" then
          (.s (getD cust "email" ""),
           if truthy name2 then name2
           else match getField cust "name" with
             | some v => .s v
             | none => name2)
        else (email2, name2)
      | none => (email2, name2)
    | .obj _ => (email2, name2)
  else (email2, name2)

/-- Lines 260-269: the `in_progress` branch. -/
def srInProgress (email1 : Val) (name1 : String) (smtpOk : Bool) :
    SendResult × List EmailMsg :=
  let name := if name1 == "" then "Valued Customer" else name1
  let r := sendEmailAdapter email1 ("Processing Your Request - Dino Restaurant")
    (waitBody name) smtpOk
  ((if r.1.success then { r.1 with message := some "Wait email sent" } else r.1), r.2)

/-- Lines 284-318: the tail of the `completed` branch once a confirmed
`reservation_details` object `rd` is in hand — field extraction with
fallbacks, the second by-mobile email lookup, validation, and the send. -/
def srConfirmedTail (email1 : Val) (name1 : String) (dateP timeP peopleP : String)
    (phone : Val) (rd : Obj) (store : Store) (smtpOk : Bool) :
    SendResult × List EmailMsg :=
  let date := orV (lookupV rd "date") (.s dateP)
  let time := orV (lookupV rd "time") (.s timeP)
  let people := orV (lookupV rd "number_of_people") (.s peopleP)
  let name2 := orV (lookupV rd "customer_name") (.s name1)
  let email2 := orV (lookupV rd "email") email1
  let en := secondFill email2 name2 phone store
  if ¬ truthy date ∨ ¬ truthy time ∨ ¬ truthy people then
    ({ success := false, message := some "Reservation details incomplete" }, [])
  else
    let name4 := if truthy en.2 then en.2 else .s "Valued Customer"
    let r := sendEmailAdapter en.1 ("Reservation Confirmation - Dino Restaurant")
      (confirmBody (rendV name4) (rendV date) (rendV time) (rendV people)) smtpOk
    ((if r.1.success then { r.1 with message := some "Reservation confirmation sent" }
      else r.1), r.2)

/-- Lines 272-318: the `completed` branch, in the `Except` monad so that the
spots where Python raises `AttributeError` (`.get` on a string) surface as
`.error`, caught by the surrounding `try/except`. -/
def srCompleted (email1 : Val) (name1 : String) (dateP timeP peopleP : String)
    (phone : Val) (cd : Obj) (store : Store) (smtpOk : Bool) :
    Except String (SendResult × List EmailMsg) :=
  match objGetD cd "call_details" with
  | .error e => .error e
  | .ok call_details =>
    match objGetD call_details "callOutcomesData" with
    | .error e => .error e
    | .ok call_outcomes =>
      if ¬ optIsStr (lookupV call_outcomes "outcome") "reservation_confirmed" then
        .ok ({ success := false, message := some "No reservation confirmed in this call" }, [])
      else
        let rdv := (lookupV call_outcomes "reservation_details").getD (.obj [])
        if ¬ truthy rdv then
          .ok ({ success := false, message := some "Reservation not confirmed" }, [])
        else
          match rdv with
          | .s _ => .error "AttributeError"
          | .obj rd =>
            if ¬ optIsStr (lookupV rd "status") "confirmed" then
              .ok ({ success := false, message := some "Reservation not confirmed" }, [])
            else
              .ok (srConfirmedTail email1 name1 dateP timeP peopleP phone rd store smtpOk)

/-- Lines 243-323: the whole `if call_data:` body, with the enclosing
`try/except` turning an `AttributeError` into the tagged failure of line 323. -/
def srData (emailP nameP dateP timeP peopleP : String) (cd : Obj) (store : Store)
    (smtpOk : Bool) : SendResult × List EmailMsg :=
  let call_status := (lookupV cd "status").getD (.s "")
  let phone := (lookupV cd "phone_number").getD (.s "")
  let en := topFill emailP nameP phone store
  if isStrVal call_status "in_progress" then srInProgress en.1 en.2 smtpOk
  else if isStrVal call_status "completed" then
    match srCompleted en.1 en.2 dateP timeP peopleP phone cd store smtpOk with
    | .ok r => r
    | .error _ => ({ success := false, error := some "Error extracting call data" }, [])
  else
    ({ success := false,
       message := some ("Call status \x27" ++ rendV call_status ++ "\x27 not handled") }, [])

/-- Lines 325-337: the branch taken when `call_data` is falsy (absent or the
empty dict). -/
def srDirect (emailP nameP dateP timeP peopleP : String) (smtpOk : Bool) :
    SendResult × List EmailMsg :=
  if dateP == "" ∨ timeP == "" ∨ peopleP == "" then
    ({ success := false, message := some "Reservation details incomplete" }, [])
  else
    let name := if nameP == "" then "Valued Customer" else nameP
    let r := sendEmailAdapter (.s emailP) ("Reservation Confirmation - Dino Restaurant")
      (confirmBody name dateP timeP peopleP) smtpOk
    ((if r.1.success then { r.1 with message := some "Reservation confirmation sent" }
      else r.1), r.2)

/-- `phone_handler.send_reservation_email` (lines 223-337).  Returns the
result dict and the list of emails handed to the SMTP transport. -/
def sendReservationEmail (emailP nameP dateP timeP peopleP : String)
    (call_data : Option Obj) (store : Store) (smtpOk : Bool) :
    SendResult × List EmailMsg :=
  match call_data with
  | some cd =>
    if cd.isEmpty then srDirect emailP nameP dateP timeP peopleP smtpOk
    else srData emailP nameP dateP timeP peopleP cd store smtpOk
  | none => srDirect emailP nameP dateP timeP peopleP smtpOk

/-- The structural outcome extraction actually performed by the `completed`
branch (lines 272-282): `call_details → callOutcomesData`, the discriminator
`outcome == "reservation_confirmed"`, then a non-empty `reservation_details`
object with `status == "confirmed"`.  `none` covers every path on which the
code does not act on reservation details (including the `AttributeError`
paths). -/
def implExtract (cd : Obj) : Option Obj :=
  match objGetD cd "call_details" with
  | .error _ => none
  | .ok call_details =>
    match objGetD call_details "callOutcomesData" with
    | .error _ => none
    | .ok call_outcomes =>
      if ¬ optIsStr (lookupV call_outcomes "outcome") "reservation_confirmed" then none
      else
        let rdv := (lookupV call_outcomes "reservation_details").getD (.obj [])
        if ¬ truthy rdv then none
        else match rdv with
          | .s _ => none
          | .obj rd =>
            if optIsStr (lookupV rd "status") "confirmed" then some rd else none

/-- The recipient the completed branch resolves when the caller passed empty
strings (the notification job always does): the reservation-details email,
else the store email found by phone number. -/
def resolvedEmail (cd : Obj) (rd : Obj) (store : Store) : Val :=
  orV (lookupV rd "email")
    (topFill "" "" ((lookupV cd "phone_number").getD (.s "")) store).1

/-!
## `backend/scheduler.py` — the notification job `check_and_send_reservation_emails`
-/

/-- The external interactions of one notification tick that the dedup claim
speaks about: a call-detail fetch, and an email handed to the SMTP transport
while processing a given call id. -/
inductive NEffect where
  | detailFetch : Nat → NEffect
  | emailSend : Nat → EmailMsg → NEffect

/-- Does an effect belong to the processing of call id `s`? -/
def effTouches (s : String) : NEffect → Prop
  | .detailFetch n => toString n = s
  | .emailSend n _ => toString n = s

instance (s : String) (e : NEffect) : Decidable (effTouches s e) := by
  cases e <;> simp [effTouches] <;> infer_instance

/-- The environment of one notification tick: the provider list result
(`none` = `get_calls_list` failed), the per-id detail result (`none` = the
fetch failed), the customer store read during email resolution, and the SMTP
oracle per call id. -/
structure NotifEnv where
  calls : Option (List (Nat × String))
  detailOf : Nat → Option Obj
  store : Store
  smtpOk : Nat → Bool

/-- The loop body of `check_and_send_reservation_emails` (`scheduler.py`
lines 84-122) for one completed call, threading the dedup cache and
accumulating effects. -/
def notifStep (env : NotifEnv) (acc : List String × List NEffect) (entry : Nat × String) :
    List String × List NEffect :=
  let idStr := toString entry.1
  if idStr ∈ acc.1 then acc
  else
    let effs := acc.2 ++ [.detailFetch entry.1]
    match env.detailOf entry.1 with
    | none => (acc.1, effs)
    | some data =>
      let r := sendReservationEmail "" "" "" "" "" (some data) env.store (env.smtpOk entry.1)
      let effs := effs ++ r.2.map (NEffect.emailSend entry.1)
      if r.1.success then (acc.1 ++ [idStr], effs)
      else if r.1.message = some "No reservation confirmed in this call" then
        (acc.1 ++ [idStr], effs)
      else (acc.1, effs)

/-- `scheduler.check_and_send_reservation_emails` (lines 64-125): one tick of
the notification job over the dedup cache `sent_emails_cache`. -/
def notifTick (env : NotifEnv) (cache : List String) : List String × List NEffect :=
  match env.calls with
  | none => (cache, [])
  | some calls =>
    (calls.filter (fun e => e.2 == "completed")).foldl (notifStep env) (cache, [])

/-- A sequence of notification ticks, accumulating all effects. -/
def runNotifTicks : List NotifEnv → List String → List String × List NEffect
  | [], cache => (cache, [])
  | env :: rest, cache =>
    ((runNotifTicks rest (notifTick env cache).1).1,
     (notifTick env cache).2 ++ (runNotifTicks rest (notifTick env cache).1).2)

/-!
## `backend/app.py` — the completion waiter `wait_for_call_completion`
-/

/-- What `wait_for_call_completion` returns in Python: on timeout the bare
boolean `False` (line 91), on completion the pair `(True, details)`
(line 99) — two different shapes. -/
inductive WaitRet where
  | timeoutFalse : WaitRet
  | completedPair : String → WaitRet
deriving DecidableEq, Repr

/-- `app.wait_for_call_completion` (lines 77-100).  `oracle k` is the k-th
poll of `get_call_detail`: `some st` = success with `data.status = st`,
`none` = a failed poll (transport error or missing status) — both make the
loop sleep and retry.  Elapsed time advances only in `asyncio.sleep`, so
after `k` sleeps `elapsed = k * pollInterval`.  `fuel` bounds the unrolling;
`none` means the loop has not returned within `fuel` iterations. -/
def waitLoop (oracle : Nat → Option String) (timeoutSeconds pollInterval : ℚ) :
    Nat → Nat → Option WaitRet
  | 0, _ => none
  | fuel + 1, k =>
    if (k : ℚ) * pollInterval > timeoutSeconds then some .timeoutFalse
    else
      match oracle k with
      | some st =>
        if st == "completed" then some (.completedPair st)
        else waitLoop oracle timeoutSeconds pollInterval fuel (k + 1)
      | none => waitLoop oracle timeoutSeconds pollInterval fuel (k + 1)

/-!
## Spec-side model of the §4.1 two-stage outcome extractor (for claim C3)

These definitions follow the words of the specification, not the source; they
exist to be compared with the extraction the source actually performs.
-/

/-- The four-field reservation outcome of spec §3/§4.1. -/
structure NLOutcome where
  date : String
  time : String
  number_of_people : String
  status : String
deriving DecidableEq, Repr

mutual

/-- Generic recursive search for a field literally named
`"reservation_details"` (spec §4.1, structural pass, second alternative). -/
def findRD : Val → Option Obj
  | .s _ => none
  | .obj o =>
    match lookupV o "reservation_details" with
    | some (.obj r) => some r
    | _ => findRDList o

/-- Search the fields of an object in order. -/
def findRDList : List (String × Val) → Option Obj
  | [] => none
  | p :: rest =>
    match findRD p.2 with
    | some r => some r
    | none => findRDList rest

end

/-- The string-field projection of a found reservation-details object. -/
def strD (o : Obj) (k : String) : String :=
  match lookupV o k with
  | some (.s x) => x
  | _ => ""

/-- Spec §4.1, formalised from the specification's words for comparison with
the source: a two-stage pipeline that stops at first success.  Stage 1 is the
structural pass (the known nested path
`call_details → callOutcomesData → reservation_details`, or the generic
recursive search `findRD`); stage 2, entered only when stage 1 yields
nothing, sends the full raw payload to the external natural-language
extraction service `nl`, whose defensively parsed response is `none` for any
of empty output, unparsable output, the null sentinel, or a missing required
key. -/
def specTwoStageExtract (nl : Obj → Option NLOutcome) (p : Obj) : Option NLOutcome :=
  match findRD (.obj p) with
  | some rd => some ⟨strD rd "date", strD rd "time", strD rd "number_of_people", strD rd "status"⟩
  | none => nl p

/-- Every store write of the backend leaves only the six schema columns:
rows carry no field outside `CSV_COLUMNS`. -/
def Projected (s : Store) : Prop :=
  ∀ c ∈ s, ∀ k, k ∉ CSV_COLUMNS → getField c k = none

/-- A completed-call payload whose `callOutcomesData` holds a confirmed
reservation with non-empty date, time and guest count — but no email address
anywhere, no phone number, and (for the theorems that use it) an empty
customer store to resolve one from. -/
def cexRdNoEmail : Obj :=
  [("status", Val.s "confirmed"), ("date", Val.s "2024-01-01"),
   ("time", Val.s "19:00"), ("number_of_people", Val.s "4")]

/-- See `cexRdNoEmail`. -/
def cexPayloadNoEmail : Obj :=
  [("status", Val.s "completed"),
   ("call_details", Val.obj
     [("callOutcomesData", Val.obj
       [("outcome", Val.s "reservation_confirmed"),
        ("reservation_details", Val.obj cexRdNoEmail)])])]

/-- A completed-call payload with no `reservation_details` anywhere (the
outcome is `no_answer`). -/
def cexPayloadNoRD : Obj :=
  [("status", Val.s "completed"),
   ("call_details", Val.obj
     [("callOutcomesData", Val.obj [("outcome", Val.s "no_answer")])])]

/-!
## Support lemmas about the store
-/

theorem keys_projectRow (c : Rec) : (projectRow c).map Prod.fst = CSV_COLUMNS := rfl

theorem getField_projectRow_cid (c : Rec) :
    getField (projectRow c) "customer_id" = some (getD c "customer_id" "") := rfl

theorem getField_projectRow_not_mem (c : Rec) (k : String) (hk : k ∉ CSV_COLUMNS) :
    getField (projectRow c) k = none := by
  simp only [CSV_COLUMNS, List.mem_cons, not_or] at hk
  obtain ⟨h1, h2, h3, h4, h5, h6, -⟩ := hk
  have e1 : (("customer_id" : String) == k) = false := beq_eq_false_iff_ne.mpr (Ne.symm h1)
  have e2 : (("name" : String) == k) = false := beq_eq_false_iff_ne.mpr (Ne.symm h2)
  have e3 : (("mobile" : String) == k) = false := beq_eq_false_iff_ne.mpr (Ne.symm h3)
  have e4 : (("email" : String) == k) = false := beq_eq_false_iff_ne.mpr (Ne.symm h4)
  have e5 : (("timestamp" : String) == k) = false := beq_eq_false_iff_ne.mpr (Ne.symm h5)
  have e6 : (("admin_token" : String) == k) = false := beq_eq_false_iff_ne.mpr (Ne.symm h6)
  simp [projectRow, CSV_COLUMNS, getField, List.find?, e1, e2, e3, e4, e5, e6]

theorem updateFirst_isSome (id : String) (upd : List (String × String)) :
    ∀ s : List Rec, (∃ c ∈ s, getField c "customer_id" = some id) →
      ∃ s1, updateFirst id upd s = some s1 := by
  intro s
  induction s with
  | nil => rintro ⟨c, hc, -⟩; exact absurd hc (List.not_mem_nil c)
  | cons a rest ih =>
    rintro ⟨c, hc, hcid⟩
    by_cases ha : getField a "customer_id" == some id
    · exact ⟨updateRow upd a :: rest, by simp [updateFirst, ha]⟩
    · rcases List.mem_cons.mp hc with rfl | hmem
      · exact absurd (beq_iff_eq.mpr hcid) (by simpa using ha)
      · obtain ⟨rest1, hrest1⟩ := ih ⟨c, hmem, hcid⟩
        exact ⟨a :: rest1, by simp [updateFirst, ha, hrest1]⟩

theorem ids_writeCustomers (cs : List Rec) :
    (writeCustomers cs).map (fun r => getD r "customer_id" "")
      = cs.map (fun r => getD r "customer_id" "") := by
  induction cs with
  | nil => rfl
  | cons a rest ih =>
    simp only [writeCustomers, List.map_cons] at *
    rw [ih]
    simp [getD, getField_projectRow_cid]

/-!
## Claim C2 — non-schema updates are silently discarded
-/

/-- C2 (confirmed): every row persisted by the store carries exactly the six
schema columns; for a customer id present in the store, `update_customer`
with a field outside `CSV_COLUMNS` still reports `True`, yet the value is
absent from every row of any subsequent read — both through `read_customers`
(the rows themselves) and through `get_customer_by_id`.  The hypothesis
`hid` says the id is present (on rows the Python code reads via
`customer["customer_id"]`, so the key exists). -/
theorem C2_non_schema_updates_discarded (s : Store) (id k v : String) (c : Rec)
    (hc : c ∈ s) (hid : getField c "customer_id" = some id) (hk : k ∉ CSV_COLUMNS) :
    (updateCustomer s id [(k, v)]).1 = true
    ∧ (∀ r ∈ (updateCustomer s id [(k, v)]).2,
        r.map Prod.fst = CSV_COLUMNS ∧ getField r k = none)
    ∧ (∀ r, getCustomerById (updateCustomer s id [(k, v)]).2 id = some r
        → getField r k = none) := by
  obtain ⟨s1, hs1⟩ := updateFirst_isSome id [(k, v)] s ⟨c, hc, hid⟩
  have hmem : ∀ r ∈ (updateCustomer s id [(k, v)]).2,
      r.map Prod.fst = CSV_COLUMNS ∧ getField r k = none := by
    intro r hr
    rw [updateCustomer, hs1] at hr
    simp only [writeCustomers, List.mem_map] at hr
    obtain ⟨r0, -, rfl⟩ := hr
    exact ⟨keys_projectRow r0, getField_projectRow_not_mem r0 k hk⟩
  refine ⟨by rw [updateCustomer, hs1], hmem, ?_⟩
  intro r hr
  exact (hmem r (List.mem_of_find?_eq_some hr)).2

/-- Witness for C2 at a concrete store. -/
theorem C2_witness :
    (updateCustomer [[("customer_id", "A")]] "A" [("status", "new")]).1 = true
    ∧ (∀ r ∈ (updateCustomer [[("customer_id", "A")]] "A" [("status", "new")]).2,
        r.map Prod.fst = CSV_COLUMNS ∧ getField r "status" = none)
    ∧ (∀ r, getCustomerById (updateCustomer [[("customer_id", "A")]] "A"
          [("status", "new")]).2 "A" = some r → getField r "status" = none) :=
  C2_non_schema_updates_discarded [[("customer_id", "A")]] "A" "status" "new"
    [("customer_id", "A")] (by simp) (by rfl) (by decide)

/-!
## Claim C10 — add / get round-trip
-/

/-- C10 (confirmed): creating a customer whose resolved id (caller-supplied,
or the generated one when the caller supplied `""`) is not already present,
then fetching by the returned id, yields exactly the field values the
customer was created with (with the documented timestamp defaulting). -/
theorem C10_add_get_roundtrip (s : Store)
    (name mobile email timestamp customer_id admin_token genId nowIso : String)
    (hfresh : ∀ r ∈ s, getD r "customer_id" ""
        ≠ (if customer_id == "" then genId else customer_id)) :
    ∃ r, getCustomerById
          (addCustomer s name mobile email timestamp customer_id admin_token genId nowIso).2
          (addCustomer s name mobile email timestamp customer_id admin_token genId nowIso).1
        = some r
      ∧ getField r "customer_id"
          = some (addCustomer s name mobile email timestamp customer_id admin_token genId nowIso).1
      ∧ getField r "name" = some name
      ∧ getField r "mobile" = some mobile
      ∧ getField r "email" = some email
      ∧ getField r "timestamp" = some (if timestamp == "" then nowIso else timestamp)
      ∧ getField r "admin_token" = some admin_token := by
  set cid0 := if customer_id == "" then genId else customer_id with hcid0
  set row : Rec :=
    [("customer_id", cid0), ("name", name), ("mobile", mobile),
     ("email", email), ("timestamp", if timestamp == "" then nowIso else timestamp),
     ("admin_token", admin_token)] with hrow
  have hres : addCustomer s name mobile email timestamp customer_id admin_token genId nowIso
      = (cid0, writeCustomers (s ++ [row])) := rfl
  have hnone : (writeCustomers s).find?
      (fun c => getField c "customer_id" == some cid0) = none := by
    rw [List.find?_eq_none]
    intro x hx
    simp only [writeCustomers, List.mem_map] at hx
    obtain ⟨r0, hr0, rfl⟩ := hx
    simp [getField_projectRow_cid, hfresh r0 hr0]
  have hfld : getField (projectRow row) "customer_id" = some cid0 := by
    rw [getField_projectRow_cid]; rfl
  refine ⟨projectRow row, ?_, ?_, rfl, rfl, rfl, rfl, rfl⟩
  · rw [hres]
    show (writeCustomers (s ++ [row])).find? _ = _
    rw [show writeCustomers (s ++ [row]) = writeCustomers s ++ [projectRow row] by
      simp [writeCustomers]]
    rw [List.find?_append, hnone]
    simp [hfld]
  · rw [hres, hfld]

/-- Witness for C10 at a concrete store and inputs. -/
theorem C10_witness :
    ∃ r, getCustomerById
          (addCustomer [[("customer_id", "A")]] "bob" "123" "b@x" "" "" "" "RES1" "T0").2
          (addCustomer [[("customer_id", "A")]] "bob" "123" "b@x" "" "" "" "RES1" "T0").1
        = some r
      ∧ getField r "customer_id"
          = some (addCustomer [[("customer_id", "A")]] "bob" "123" "b@x" "" "" "" "RES1" "T0").1
      ∧ getField r "name" = some "bob"
      ∧ getField r "mobile" = some "123"
      ∧ getField r "email" = some "b@x"
      ∧ getField r "timestamp" = some (if ("" : String) == "" then "T0" else "")
      ∧ getField r "admin_token" = some "" :=
  C10_add_get_roundtrip [[("customer_id", "A")]] "bob" "123" "b@x" "" "" "" "RES1" "T0"
    (by decide)

/-!
## Claim C8 — customer-id uniqueness
-/

/-- Counterexample to C8: `add_customer` never checks whether the (supplied or
generated) id already exists, so adding two customers with the same supplied
`customer_id` leaves the store with two records carrying that id. -/
theorem C8_counterexample :
    (((addCustomer (addCustomer [] "a" "1" "" "" "X" "" "G1" "T").2
        "b" "2" "" "" "X" "" "G2" "T").2.filter
          (fun r => getD r "customer_id" "" == "X")).length = 2) := by decide

/-- C8 (corrected): uniqueness of `customer_id` holds only under the
precondition the code never checks — that the resolved id of the new record
differs from every id already in the store.  Under that precondition the ids
stay pairwise distinct. -/
theorem C8_amended_fresh_ids_stay_unique (s : Store)
    (name mobile email timestamp customer_id admin_token genId nowIso : String)
    (hnodup : (s.map (fun r => getD r "customer_id" "")).Nodup)
    (hfresh : (if customer_id == "" then genId else customer_id)
        ∉ s.map (fun r => getD r "customer_id" "")) :
    ((addCustomer s name mobile email timestamp customer_id admin_token genId nowIso).2.map
        (fun r => getD r "customer_id" "")).Nodup := by
  have h : (addCustomer s name mobile email timestamp customer_id admin_token genId nowIso).2
      = writeCustomers (s ++
          [[("customer_id", if customer_id == "" then genId else customer_id),
            ("name", name), ("mobile", mobile), ("email", email),
            ("timestamp", if timestamp == "" then nowIso else timestamp),
            ("admin_token", admin_token)]]) := rfl
  rw [h, ids_writeCustomers, List.map_append]
  simp only [List.map_cons, List.map_nil]
  rw [List.nodup_append]
  refine ⟨hnodup, List.nodup_singleton _, ?_⟩
  intro x hx
  simp only [List.mem_singleton]
  intro hx1
  apply hfresh
  have : getD [("customer_id", if customer_id == "" then genId else customer_id),
      ("name", name), ("mobile", mobile), ("email", email),
      ("timestamp", if timestamp == "" then nowIso else timestamp),
      ("admin_token", admin_token)] "customer_id" ""
      = (if customer_id == "" then genId else customer_id) := rfl
  rw [hx1, this] at hx
  exact hx

/-- Witness for the amended C8. -/
theorem C8_amended_witness :
    (((addCustomer [[("customer_id", "A")]] "b" "2" "" "" "X" "" "G2" "T").2.map
        (fun r => getD r "customer_id" "")).Nodup) :=
  C8_amended_fresh_ids_stay_unique [[("customer_id", "A")]] "b" "2" "" "" "X" "" "G2" "T"
    (by decide) (by decide)

/-!
## Claim C9 — unrecognized outcome discriminators are no-ops
-/

/-- C9 (confirmed): for the `arrival_confirmation` and
`missed_customer_recovery` flows, a webhook outcome whose discriminator field
(`arrival_status` / `action`) is missing or carries an unrecognized value
performs no store update at all — the store (hence every customer record,
byte for byte, `last_call_time` included) is unchanged — and the operation
still reports success. -/
theorem C9_unrecognized_outcome_noop (s : Store) (cid flow : String)
    (result : List (String × String)) (c : Rec)
    (hcid : cid ≠ "")
    (hc : getCustomerById s cid = some c)
    (hflow : flow = "arrival_confirmation" ∨ flow = "missed_customer_recovery")
    (harr : flow = "arrival_confirmation" →
      pyLower (getD result "arrival_status" "") ∉
        (["arrived", "on the way", "not coming", "cancel"] : List String))
    (hact : flow = "missed_customer_recovery" →
      pyLower (getD result "action" "") ∉
        (["reschedule", "takeaway", "cancel"] : List String)) :
    handleCallWebhook (some cid) (some flow) result s = ({ success := true }, s) := by
  rcases hflow with rfl | rfl
  · have h := harr rfl
    simp only [List.mem_cons, not_or] at h
    obtain ⟨h1, h2, h3, h4, -⟩ := h
    simp [handleCallWebhook, hcid, hc, h1, h2, h3, h4]
  · have h := hact rfl
    simp only [List.mem_cons, not_or] at h
    obtain ⟨h1, h2, h3, -⟩ := h
    simp [handleCallWebhook, hcid, hc, h1, h2, h3]

/-- Witness for C9: an arrival-confirmation outcome with the discriminator
absent leaves the store untouched and succeeds. -/
theorem C9_witness :
    handleCallWebhook (some "A") (some "arrival_confirmation") []
        [[("customer_id", "A")]]
      = ({ success := true }, [[("customer_id", "A")]]) :=
  C9_unrecognized_outcome_noop [[("customer_id", "A")]] "A" "arrival_confirmation" []
    [("customer_id", "A")] (by decide) (by rfl) (Or.inl rfl) (by decide) (by simp)

/-!
## Claim C6 — the completion waiter on a never-completing provider
-/

/-- C6 (code bug): against a provider that never reports `"completed"` (here
with a transport error on the very first poll, which does not abort the
wait), the waiter with `timeout_seconds = 1`, `poll_interval = 1` terminates
once elapsed time exceeds the timeout — but it returns the bare boolean
`False` (`app.py` line 91), not a `(false, ...)` pair as the claim and its
own caller (`completed, details = await wait_for_call_completion(...)`,
`app.py` line 126) require. -/
theorem C6_waiter_timeout_returns_bare_false :
    waitLoop (fun k => if k == 0 then none else some "in_progress") 1 1 4 0
      = some WaitRet.timeoutFalse := by
  simp [waitLoop]

/-!
## Support lemmas for the notification job (claim C5)
-/

theorem notifStep_skip (env : NotifEnv) (acc : List String × List NEffect)
    (entry : Nat × String) (h : toString entry.1 ∈ acc.1) :
    notifStep env acc entry = acc := by
  simp [notifStep, h]

theorem notifStep_cache_mono (env : NotifEnv) (acc : List String × List NEffect)
    (entry : Nat × String) (s : String) (hs : s ∈ acc.1) :
    s ∈ (notifStep env acc entry).1 := by
  unfold notifStep
  by_cases h : toString entry.1 ∈ acc.1
  · simp [h, hs]
  · simp only [h, if_neg, ite_false]
    cases env.detailOf entry.1 with
    | none => simpa using hs
    | some data =>
      simp only []
      split
      · exact List.mem_append_left _ hs
      · split
        · exact List.mem_append_left _ hs
        · simpa using hs

theorem notifStep_no_touch (env : NotifEnv) (acc : List String × List NEffect)
    (entry : Nat × String) (s : String) (hs : s ∈ acc.1) :
    ∀ e ∈ (notifStep env acc entry).2, e ∈ acc.2 ∨ ¬ effTouches s e := by
  by_cases h : toString entry.1 ∈ acc.1
  · rw [notifStep_skip env acc entry h]
    exact fun e he => Or.inl he
  · have hne : toString entry.1 ≠ s := fun heq => h (heq ▸ hs)
    intro e he
    unfold notifStep at he
    simp only [h, ite_false] at he
    have htag : ∀ e2 ∈ (match env.detailOf entry.1 with
        | none => (acc.1, acc.2 ++ [NEffect.detailFetch entry.1])
        | some data =>
          let r := sendReservationEmail "" "" "" "" "" (some data) env.store (env.smtpOk entry.1)
          let effs := acc.2 ++ [NEffect.detailFetch entry.1] ++ r.2.map (NEffect.emailSend entry.1)
          if r.1.success then (acc.1 ++ [toString entry.1], effs)
          else if r.1.message = some "No reservation confirmed in this call" then
            (acc.1 ++ [toString entry.1], effs)
          else (acc.1, effs)).2,
        e2 ∈ acc.2 ∨ ¬ effTouches s e2 := by
      intro e2 he2
      cases hdet : env.detailOf entry.1 with
      | none =>
        rw [hdet] at he2
        simp only [List.mem_append, List.mem_singleton] at he2
        rcases he2 with h1 | rfl
        · exact Or.inl h1
        · exact Or.inr (by simpa [effTouches] using hne)
      | some data =>
        rw [hdet] at he2
        have hmem : e2 ∈ acc.2 ++ [NEffect.detailFetch entry.1]
            ++ (sendReservationEmail "" "" "" "" "" (some data) env.store
                (env.smtpOk entry.1)).2.map (NEffect.emailSend entry.1) := by
          dsimp only [] at he2
          split at he2 <;> [skip; split at he2] <;> exact he2
        simp only [List.mem_append, List.mem_singleton, List.mem_map] at hmem
        rcases hmem with (h1 | rfl) | ⟨m, -, rfl⟩
        · exact Or.inl h1
        · exact Or.inr (by simpa [effTouches] using hne)
        · exact Or.inr (by simpa [effTouches] using hne)
    exact htag e he

theorem notifFold_inv (env : NotifEnv) (l : List (Nat × String))
    (acc : List String × List NEffect) (s : String)
    (hs : s ∈ acc.1) (he : ∀ e ∈ acc.2, ¬ effTouches s e) :
    s ∈ (l.foldl (notifStep env) acc).1
    ∧ ∀ e ∈ (l.foldl (notifStep env) acc).2, ¬ effTouches s e := by
  induction l generalizing acc with
  | nil => exact ⟨hs, he⟩
  | cons a rest ih =>
    refine ih (notifStep env acc a) (notifStep_cache_mono env acc a s hs) ?_
    intro e hmem
    rcases notifStep_no_touch env acc a s hs e hmem with h1 | h2
    · exact he e h1
    · exact h2

theorem notifTick_inv (env : NotifEnv) (cache : List String) (s : String)
    (hs : s ∈ cache) :
    s ∈ (notifTick env cache).1 ∧ ∀ e ∈ (notifTick env cache).2, ¬ effTouches s e := by
  unfold notifTick
  cases env.calls with
  | none => exact ⟨hs, by simp⟩
  | some calls =>
    exact notifFold_inv env (calls.filter (fun e => e.2 == "completed")) (cache, []) s hs
      (by simp)

theorem runTicks_no_touch (envs : List NotifEnv) (cache : List String) (s : String)
    (hs : s ∈ cache) :
    ∀ e ∈ (runNotifTicks envs cache).2, ¬ effTouches s e := by
  induction envs generalizing cache with
  | nil => simp [runNotifTicks]
  | cons env rest ih =>
    intro e hmem
    simp only [runNotifTicks, List.mem_append] at hmem
    rcases hmem with h | h
    · exact (notifTick_inv env cache s hs).2 e h
    · exact ih (notifTick env cache).1 (notifTick_inv env cache s hs).1 e h

theorem notifStep_marks_iff (env : NotifEnv) (cache : List String) (effs : List NEffect)
    (id : Nat) (st : String) (h : toString id ∉ cache) :
    toString id ∈ (notifStep env (cache, effs) (id, st)).1 ↔
      ∃ data, env.detailOf id = some data ∧
        ((sendReservationEmail "" "" "" "" "" (some data) env.store (env.smtpOk id)).1.success
            = true
         ∨ (sendReservationEmail "" "" "" "" "" (some data) env.store (env.smtpOk id)).1.message
             = some "No reservation confirmed in this call") := by
  unfold notifStep
  simp only [h, ite_false]
  cases hdet : env.detailOf id with
  | none => simp [h]
  | some data =>
    by_cases hsucc :
        (sendReservationEmail "" "" "" "" "" (some data) env.store (env.smtpOk id)).1.success
          = true
    · simp [hsucc, hdet]
    · by_cases hmsg :
          (sendReservationEmail "" "" "" "" "" (some data) env.store (env.smtpOk id)).1.message
            = some "No reservation confirmed in this call"
      · simp [hsucc, hmsg, hdet]
      · simp [hsucc, hmsg, hdet, h]

/-!
## Claim C5 — dedup cache semantics
-/

/-- C5 (confirmed): (i) once a call id is in the dedup cache
`sent_emails_cache`, no subsequent notification tick — over any sequence of
ticks, any provider behaviour, store, or SMTP outcomes — produces a
call-detail fetch or an email-send for that id; (ii) a tick marks a
not-yet-cached completed call id as handled exactly when its processing
either sent the reservation email successfully or concluded "No reservation
confirmed in this call", and never on a transient failure (a failed detail
fetch, or any other failed email result). -/
theorem C5_dedup_marked_never_reprocessed
    (envs : List NotifEnv) (cache : List String) (s : String)
    (env : NotifEnv) (cache2 : List String) (effs : List NEffect) (id : Nat) (st : String)
    (hs : s ∈ cache) (hid : toString id ∉ cache2) :
    (∀ e ∈ (runNotifTicks envs cache).2, ¬ effTouches s e)
    ∧ (toString id ∈ (notifStep env (cache2, effs) (id, st)).1 ↔
        ∃ data, env.detailOf id = some data ∧
          ((sendReservationEmail "" "" "" "" "" (some data) env.store (env.smtpOk id)).1.success
              = true
           ∨ (sendReservationEmail "" "" "" "" "" (some data) env.store
               (env.smtpOk id)).1.message = some "No reservation confirmed in this call")) :=
  ⟨runTicks_no_touch envs cache s hs, notifStep_marks_iff env cache2 effs id st hid⟩

/-- Witness for C5 at a concrete tick: call id 42 already cached, and a fresh
id 7 whose detail fetch fails (a transient failure: not marked). -/
theorem C5_witness :
    (∀ e ∈ (runNotifTicks
        [{ calls := some [(42, "completed")], detailOf := fun _ => none,
           store := [], smtpOk := fun _ => true }] ["42"]).2, ¬ effTouches "42" e)
    ∧ (toString 7 ∈ (notifStep
        { calls := some [(42, "completed")], detailOf := fun _ => none,
          store := [], smtpOk := fun _ => true } (([] : List String), []) (7, "completed")).1 ↔
        ∃ data, (fun (_ : Nat) => (none : Option Obj)) 7 = some data ∧
          (((sendReservationEmail "" "" "" "" "" (some data) [] true).1.success = true)
           ∨ (sendReservationEmail "" "" "" "" "" (some data) [] true).1.message
               = some "No reservation confirmed in this call")) :=
  C5_dedup_marked_never_reprocessed
    [{ calls := some [(42, "completed")], detailOf := fun _ => none,
       store := [], smtpOk := fun _ => true }] ["42"] "42"
    { calls := some [(42, "completed")], detailOf := fun _ => none,
      store := [], smtpOk := fun _ => true } [] [] 7 "completed"
    (by simp) (by simp)

/-!
## Support lemmas for the scan job (claims C1 and C7)
-/

theorem scanPassNew_events (http : Nat → Bool) (nowIso : String) :
    ∀ (l : List Rec) (s : Store) (k : Nat),
      (scanPassNew http nowIso s k l).2.1
        = l.filterMap (fun c =>
            if newCond c then some (("order_booking", getD c "customer_id" "")) else none) := by
  intro l
  induction l with
  | nil => intro s k; rfl
  | cons c rest ih =>
    intro s k
    by_cases h : newCond c
    · simp [scanPassNew, h, ih]
    · simp [scanPassNew, h, ih]

theorem scanPassArrival_events (http : Nat → Bool) (nowIso : String) :
    ∀ (l : List Rec) (s : Store) (k : Nat),
      (scanPassArrival http nowIso s k l).2.1
        = l.filterMap (fun c =>
            if arrivalCond c then some (("arrival_confirmation", getD c "customer_id" ""))
            else none) := by
  intro l
  induction l with
  | nil => intro s k; rfl
  | cons c rest ih =>
    intro s k
    by_cases h : arrivalCond c
    · simp [scanPassArrival, h, ih]
    · simp [scanPassArrival, h, ih]

theorem scanPassNoShow_events (http : Nat → Bool) (nowIso : String) (now : ℚ)
    (parse : String → Option ℚ) :
    ∀ (l : List Rec) (s : Store) (k : Nat),
      (scanPassNoShow http nowIso now parse s k l).2.1
        = l.filterMap (fun c =>
            if noShowCond now parse c then
              some (("missed_customer_recovery", getD c "customer_id" ""))
            else none) := by
  intro l
  induction l with
  | nil => intro s k; rfl
  | cons c rest ih =>
    intro s k
    by_cases h : noShowCond now parse c
    · simp [scanPassNoShow, h, ih]
    · simp [scanPassNoShow, h, ih]

/-- Membership in the event list of a pass. -/
theorem mem_label_events (l : List Rec) (cond : Rec → Bool) (lbl : String)
    (pr : String × String) :
    pr ∈ l.filterMap (fun c =>
        if cond c then some ((lbl, getD c "customer_id" "")) else none)
    ↔ pr.1 = lbl ∧ ∃ c ∈ l, cond c = true ∧ getD c "customer_id" "" = pr.2 := by
  cases pr with
  | mk a b =>
    simp only [List.mem_filterMap]
    constructor
    · rintro ⟨c, hc, hf⟩
      by_cases h : cond c
      · rw [if_pos h] at hf
        obtain ⟨h1, h2⟩ := Prod.mk.injEq .. ▸ Option.some.injEq .. ▸ hf
        exact ⟨h1.symm, c, hc, h, h2⟩
      · rw [if_neg h] at hf
        exact absurd hf (by simp)
    · rintro ⟨rfl, c, hc, hcond, hcid⟩
      exact ⟨c, hc, by simp [hcond, hcid]⟩

theorem projected_writeCustomers (cs : List Rec) : Projected (writeCustomers cs) := by
  intro c hc k hk
  simp only [writeCustomers, List.mem_map] at hc
  obtain ⟨r0, -, rfl⟩ := hc
  exact getField_projectRow_not_mem r0 k hk

theorem updateCustomer_store (s : Store) (id : String) (upd : List (String × String)) :
    (updateCustomer s id upd).2 = s ∨ Projected (updateCustomer s id upd).2 := by
  unfold updateCustomer
  cases updateFirst id upd s with
  | none => exact Or.inl rfl
  | some s1 => exact Or.inr (projected_writeCustomers s1)

theorem triggerCall_store (s : Store) (cid : String) (hk : Bool) (n : String) :
    (triggerCall s cid hk n).2 = s ∨ Projected (triggerCall s cid hk n).2 := by
  unfold triggerCall
  cases getCustomerById s cid with
  | none => exact Or.inl rfl
  | some c =>
    by_cases hm : getD c "mobile" "" == ""
    · simp only [hm, ite_true]
      exact Or.inl (by simp)
    · simp only [hm, ite_false]
      exact updateCustomer_store s cid [("last_call_time", n)]

theorem triggerOrderBookingCall_store (s : Store) (cid : String) (hk : Bool) (n : String) :
    (triggerOrderBookingCall s cid hk n).2 = s
    ∨ Projected (triggerOrderBookingCall s cid hk n).2 := by
  unfold triggerOrderBookingCall
  cases getCustomerById s cid with
  | none => exact Or.inl rfl
  | some c =>
    by_cases h1 : getD c "status" "" != "new"
    · simp only [h1, ite_true]; exact Or.inl (by simp)
    · simp only [h1, ite_false]
      by_cases h2 : getD c "mobile" "" == ""
      · simp only [h2, ite_true]; exact Or.inl (by simp)
      · simp only [h2, ite_false]
        by_cases h3 : (triggerCall s cid hk n).1
        · simp only [h3, ite_true]
          rcases updateCustomer_store (triggerCall s cid hk n).2 cid [("status", "called")]
            with h | h
          · rw [h]; exact triggerCall_store s cid hk n
          · exact Or.inr h
        · simp only [h3, ite_false]
          exact triggerCall_store s cid hk n

theorem triggerArrivalConfirmationCall_store (s : Store) (cid : String) (hk : Bool)
    (n : String) :
    (triggerArrivalConfirmationCall s cid hk n).2 = s
    ∨ Projected (triggerArrivalConfirmationCall s cid hk n).2 := by
  unfold triggerArrivalConfirmationCall
  cases getCustomerById s cid with
  | none => exact Or.inl rfl
  | some c =>
    by_cases h2 : getD c "mobile" "" == ""
    · simp only [h2, ite_true]; exact Or.inl (by simp)
    · simp only [h2, ite_false]
      exact triggerCall_store s cid hk n

theorem triggerMissedCustomerRecoveryCall_store (s : Store) (cid : String) (hk : Bool)
    (n : String) :
    (triggerMissedCustomerRecoveryCall s cid hk n).2 = s
    ∨ Projected (triggerMissedCustomerRecoveryCall s cid hk n).2 := by
  unfold triggerMissedCustomerRecoveryCall
  cases getCustomerById s cid with
  | none => exact Or.inl rfl
  | some c =>
    by_cases h1 : getD c "status" "" != "no_show"
    · simp only [h1, ite_true]; exact Or.inl (by simp)
    · simp only [h1, ite_false]
      by_cases h2 : getD c "mobile" "" == ""
      · simp only [h2, ite_true]; exact Or.inl (by simp)
      · simp only [h2, ite_false]
        exact triggerCall_store s cid hk n

theorem scanPassNew_store (http : Nat → Bool) (nowIso : String) :
    ∀ (l : List Rec) (s : Store) (k : Nat),
      (scanPassNew http nowIso s k l).1 = s ∨ Projected (scanPassNew http nowIso s k l).1 := by
  intro l
  induction l with
  | nil => intro s k; exact Or.inl rfl
  | cons c rest ih =>
    intro s k
    by_cases h : newCond c
    · have h1 := triggerOrderBookingCall_store s (getD c "customer_id" "") (http k) nowIso
      have h2 := ih (triggerOrderBookingCall s (getD c "customer_id" "") (http k) nowIso).2
        (k + 1)
      simp only [scanPassNew, h, ite_true]
      rcases h2 with h2 | h2
      · rw [h2]; exact h1
      · exact Or.inr h2
    · simp only [scanPassNew, h, ite_false]
      exact ih s k

theorem scanPassArrival_store (http : Nat → Bool) (nowIso : String) :
    ∀ (l : List Rec) (s : Store) (k : Nat),
      (scanPassArrival http nowIso s k l).1 = s
      ∨ Projected (scanPassArrival http nowIso s k l).1 := by
  intro l
  induction l with
  | nil => intro s k; exact Or.inl rfl
  | cons c rest ih =>
    intro s k
    by_cases h : arrivalCond c
    · have h1 := triggerArrivalConfirmationCall_store s (getD c "customer_id" "") (http k)
        nowIso
      have h2 := ih (triggerArrivalConfirmationCall s (getD c "customer_id" "") (http k)
        nowIso).2 (k + 1)
      simp only [scanPassArrival, h, ite_true]
      rcases h2 with h2 | h2
      · rw [h2]; exact h1
      · exact Or.inr h2
    · simp only [scanPassArrival, h, ite_false]
      exact ih s k

theorem filter_length_one_eq (l : List Rec) (p : Rec → Bool) (c : Rec)
    (h1 : (l.filter p).length = 1) (hc : c ∈ l.filter p) : l.filter p = [c] := by
  obtain ⟨a, ha⟩ := List.length_eq_one.mp h1
  rw [ha] at hc ⊢
  simp only [List.mem_singleton] at hc
  rw [hc]

theorem count_new_events (l : List Rec) (id : String) (hid : id ≠ "") :
    (l.filterMap (fun c =>
        if newCond c then some (("order_booking", getD c "customer_id" "")) else none)).count
      ("order_booking", id)
    = (l.filter (fun c => getD c "customer_id" "" == id)).length := by
  induction l with
  | nil => rfl
  | cons c rest ih =>
    by_cases h : getD c "customer_id" "" = id
    · have hcond : newCond c = true := by simp [newCond, h, hid]
      simp [List.filterMap_cons, hcond, List.count_cons, h, ih]
    · by_cases h2 : newCond c
      · simp [List.filterMap_cons, h2, List.count_cons, h, ih]
      · simp [List.filterMap_cons, h2, h, ih]

theorem mem_by_status (s : Store) (st : String) (c : Rec)
    (h : c ∈ getCustomersByStatus s st) : c ∈ s ∧ getD c "status" "" = st := by
  obtain ⟨h1, h2⟩ := List.mem_filter.mp h
  exact ⟨h1, by simpa using h2⟩

theorem mem_arrival_check (s : Store) (now : ℚ) (parse : String → Option ℚ) (c : Rec)
    (h : c ∈ getCustomersForArrivalCheck s now parse) : c ∈ s :=
  (List.mem_filter.mp h).1

/-!
## Claim C1 — new customers are selected exactly for order booking
-/

/-- C1 (confirmed): a customer record whose `status` is `"new"` at the start
of a scan tick and whose `customer_id` is the unique non-empty occurrence of
that id in the store is selected exactly once, for the `order_booking` flow
(one invocation of `trigger_order_booking_call`), and for no other flow in
that tick — whatever the call provider answers.  The pass over `status=new`
snapshots the store before any trigger writes; later passes can never pick
the record up because a rewritten store carries no `status` column at all and
an untouched store still shows `"new"`. -/
theorem C1_new_selected_only_for_order_booking
    (s : Store) (now : ℚ) (parse : String → Option ℚ) (http : Nat → Bool) (nowIso : String)
    (c : Rec) (id : String)
    (hc : c ∈ s) (hid : getD c "customer_id" "" = id) (hne : id ≠ "")
    (hstat : getD c "status" "" = "new")
    (huniq : (s.filter (fun r => getD r "customer_id" "" == id)).length = 1) :
    ((scanTick s now parse http nowIso).2.count ("order_booking", id) = 1)
    ∧ ("arrival_confirmation", id) ∉ (scanTick s now parse http nowIso).2
    ∧ ("missed_customer_recovery", id) ∉ (scanTick s now parse http nowIso).2 := by
  have hfilter : s.filter (fun r => getD r "customer_id" "" == id) = [c] :=
    filter_length_one_eq s _ c huniq (List.mem_filter.mpr ⟨hc, by simp [hid]⟩)
  set p1 := scanPassNew http nowIso s 0 (getCustomersByStatus s "new") with hp1
  set p2 := scanPassArrival http nowIso p1.1 p1.2.2
    (getCustomersForArrivalCheck p1.1 now parse) with hp2
  set p3 := scanPassNoShow http nowIso now parse p2.1 p2.2.2
    (getCustomersByStatus p2.1 "no_show") with hp3
  have hev : (scanTick s now parse http nowIso).2 = p1.2.1 ++ p2.2.1 ++ p3.2.1 := rfl
  have hs1 : p1.1 = s ∨ Projected p1.1 := by
    rw [hp1]; exact scanPassNew_store http nowIso _ s 0
  have hs2 : p2.1 = s ∨ Projected p2.1 := by
    rcases scanPassArrival_store http nowIso
        (getCustomersForArrivalCheck p1.1 now parse) p1.1 p1.2.2 with h | h
    · rw [hp2]
      rcases hs1 with h1 | h1
      · rw [h, h1]; exact Or.inl rfl
      · rw [h]; exact Or.inr h1
    · rw [hp2]; exact Or.inr h
  have he1 : p1.2.1 = (getCustomersByStatus s "new").filterMap (fun c =>
      if newCond c then some (("order_booking", getD c "customer_id" "")) else none) := by
    rw [hp1]; exact scanPassNew_events http nowIso _ s 0
  have he2 : p2.2.1 = (getCustomersForArrivalCheck p1.1 now parse).filterMap (fun c =>
      if arrivalCond c then some (("arrival_confirmation", getD c "customer_id" ""))
      else none) := by
    rw [hp2]; exact scanPassArrival_events http nowIso _ p1.1 p1.2.2
  have he3 : p3.2.1 = (getCustomersByStatus p2.1 "no_show").filterMap (fun c =>
      if noShowCond now parse c then
        some (("missed_customer_recovery", getD c "customer_id" "")) else none) := by
    rw [hp3]; exact scanPassNoShow_events http nowIso now parse _ p2.1 p2.2.2
  have hcore : ∀ c2, c2 ∈ s → getD c2 "customer_id" "" = id → c2 = c := by
    intro c2 hmem hcid
    have : c2 ∈ s.filter (fun r => getD r "customer_id" "" == id) :=
      List.mem_filter.mpr ⟨hmem, by simp [hcid]⟩
    rw [hfilter] at this
    simpa using this
  have hno2 : ("arrival_confirmation", id) ∉ p2.2.1 := by
    rw [he2, mem_label_events]
    rintro ⟨-, c2, hc2, hcond, hcid2⟩
    have hc2s : c2 ∈ p1.1 := mem_arrival_check p1.1 now parse c2 hc2
    rcases hs1 with h | h
    · rw [h] at hc2s
      have := hcore c2 hc2s hcid2
      subst this
      simp [arrivalCond, hstat] at hcond
    · have hsf : getField c2 "status" = none := h c2 hc2s "status" (by decide)
      simp [arrivalCond, getD, hsf] at hcond
  have hno3 : ("missed_customer_recovery", id) ∉ p3.2.1 := by
    rw [he3, mem_label_events]
    rintro ⟨-, c2, hc2, hcond, hcid2⟩
    obtain ⟨hc2s, hst2⟩ := mem_by_status p2.1 "no_show" c2 hc2
    rcases hs2 with h | h
    · rw [h] at hc2s
      have := hcore c2 hc2s hcid2
      subst this
      rw [hstat] at hst2
      exact absurd hst2 (by decide)
    · have hsf : getField c2 "status" = none := h c2 hc2s "status" (by decide)
      simp [getD, hsf] at hst2
  have hob2 : ("order_booking", id) ∉ p2.2.1 := by
    rw [he2, mem_label_events]
    rintro ⟨h, -⟩
    exact absurd h (by simp)
  have hob3 : ("order_booking", id) ∉ p3.2.1 := by
    rw [he3, mem_label_events]
    rintro ⟨h, -⟩
    exact absurd h (by simp)
  have hcnt1 : p1.2.1.count ("order_booking", id) = 1 := by
    rw [he1, count_new_events _ id hne]
    have hcomm : (getCustomersByStatus s "new").filter
        (fun r => getD r "customer_id" "" == id)
        = (s.filter (fun r => getD r "customer_id" "" == id)).filter
            (fun r => getD r "status" "" == "new") := by
      rw [getCustomersByStatus, List.filter_filter, List.filter_filter]
      exact List.filter_congr (fun a _ => by rw [Bool.and_comm])
    rw [hcomm, hfilter]
    simp [hstat]
  refine ⟨?_, ?_, ?_⟩
  · rw [hev]
    simp [List.count_append, hcnt1, List.count_eq_zero.mpr hob2,
      List.count_eq_zero.mpr hob3]
  · rw [hev]
    simp only [List.mem_append, not_or]
    refine ⟨⟨?_, hno2⟩, ?_⟩
    · rw [he1, mem_label_events]
      rintro ⟨h, -⟩
      exact absurd h (by simp)
    · rw [he3, mem_label_events]
      rintro ⟨h, -⟩
      exact absurd h (by simp)
  · rw [hev]
    simp only [List.mem_append, not_or]
    refine ⟨⟨?_, ?_⟩, hno3⟩
    · rw [he1, mem_label_events]
      rintro ⟨h, -⟩
      exact absurd h (by simp)
    · rw [he2, mem_label_events]
      rintro ⟨h, -⟩
      exact absurd h (by simp)

/-- Witness for C1 at a concrete one-customer store. -/
theorem C1_witness :
    ((scanTick [[("customer_id", "X"), ("mobile", "5"), ("status", "new")]] 0
        (fun _ => none) (fun _ => true) "T").2.count ("order_booking", "X") = 1)
    ∧ ("arrival_confirmation", "X") ∉ (scanTick
        [[("customer_id", "X"), ("mobile", "5"), ("status", "new")]] 0
        (fun _ => none) (fun _ => true) "T").2
    ∧ ("missed_customer_recovery", "X") ∉ (scanTick
        [[("customer_id", "X"), ("mobile", "5"), ("status", "new")]] 0
        (fun _ => none) (fun _ => true) "T").2 :=
  C1_new_selected_only_for_order_booking
    [[("customer_id", "X"), ("mobile", "5"), ("status", "new")]] 0 (fun _ => none)
    (fun _ => true) "T" [("customer_id", "X"), ("mobile", "5"), ("status", "new")] "X"
    (by simp) (by rfl) (by decide) (by rfl) (by rfl)

/-!
## Claim C7 — no-show re-call gating
-/

/-- Counterexample to C7 as stated: customer `B` has `status = no_show`, a
non-empty id, and no `last_call_time` at all, so by the claim the tick must
select `B` for `missed_customer_recovery` — yet it does not.  Processing the
`status = new` customer `A` earlier in the same tick stamps `last_call_time`,
and that write rewrites the whole CSV restricted to the six schema columns,
erasing every `status` field; the no-show pass then re-reads the store and
finds no `no_show` customers at all. -/
theorem C7_counterexample :
    (([("customer_id", "B"), ("status", "no_show")] : Rec)
        ∈ ([[("customer_id", "A"), ("name", "a"), ("mobile", "1"), ("status", "new")],
            [("customer_id", "B"), ("status", "no_show")]] : Store))
    ∧ getD [("customer_id", "B"), ("status", "no_show")] "status" "" = "no_show"
    ∧ getField [("customer_id", "B"), ("status", "no_show")] "last_call_time" = none
    ∧ ("missed_customer_recovery", "B") ∉
        (scanTick [[("customer_id", "A"), ("name", "a"), ("mobile", "1"), ("status", "new")],
            [("customer_id", "B"), ("status", "no_show")]] 0 (fun _ => none)
          (fun _ => true) "T").2 := by
  refine ⟨by simp, rfl, rfl, ?_⟩
  decide

/-- C7 (corrected): in a tick in which the earlier passes write nothing —
no customer has `status = new` and no customer has an
`expected_arrival_time` — a `no_show` customer with a non-empty, unique id is
selected for `missed_customer_recovery` exactly when the `should_call` gate
holds: `last_call_time` absent, unparsable, or at least 30 minutes in the
past at tick time. -/
theorem C7_amended_no_show_gate
    (s : Store) (now : ℚ) (parse : String → Option ℚ) (http : Nat → Bool) (nowIso : String)
    (c : Rec) (id : String)
    (h1 : ∀ r ∈ s, getD r "status" "" ≠ "new")
    (h2 : ∀ r ∈ s, getD r "expected_arrival_time" "" = "")
    (hc : c ∈ s) (hid : getD c "customer_id" "" = id) (hne : id ≠ "")
    (hstat : getD c "status" "" = "no_show")
    (huniq : ∀ r ∈ s, getD r "customer_id" "" = id → r = c) :
    ("missed_customer_recovery", id) ∈ (scanTick s now parse http nowIso).2
      ↔ noShowGate (getD c "last_call_time" "") now parse = true := by
  have hsnap1 : getCustomersByStatus s "new" = [] := by
    rw [getCustomersByStatus, List.filter_eq_nil_iff]
    intro a ha
    simpa using h1 a ha
  have hsnap2 : getCustomersForArrivalCheck s now parse = [] := by
    rw [getCustomersForArrivalCheck, List.filter_eq_nil_iff]
    intro a ha
    simp [h2 a ha]
  have hev : (scanTick s now parse http nowIso).2
      = (scanPassNoShow http nowIso now parse s 0 (getCustomersByStatus s "no_show")).2.1 := by
    unfold scanTick
    rw [hsnap1]
    simp only [scanPassNew]
    rw [hsnap2]
    simp only [scanPassArrival]
    simp
  rw [hev, scanPassNoShow_events, mem_label_events]
  constructor
  · rintro ⟨-, c2, hc2, hcond, hcid⟩
    obtain ⟨hc2s, -⟩ := mem_by_status s "no_show" c2 hc2
    have := huniq c2 hc2s hcid
    subst this
    simpa [noShowCond, hid, hne] using hcond
  · intro hg
    refine ⟨rfl, c, List.mem_filter.mpr ⟨hc, by simp [hstat]⟩, ?_, hid⟩
    simp [noShowCond, hid, hne, hg]

/-- Witness for the amended C7: `last_call_time` parses to 31 minutes before
the tick, so the customer is selected. -/
theorem C7_amended_witness :
    ("missed_customer_recovery", "Y") ∈ (scanTick
        [[("customer_id", "Y"), ("mobile", "7"), ("status", "no_show"),
          ("last_call_time", "old")]] 31
        (fun t => if t == "old" then some 0 else none) (fun _ => true) "T").2
      ↔ noShowGate (getD [("customer_id", "Y"), ("mobile", "7"), ("status", "no_show"),
          ("last_call_time", "old")] "last_call_time" "") 31
          (fun t => if t == "old" then some 0 else none) = true :=
  C7_amended_no_show_gate
    [[("customer_id", "Y"), ("mobile", "7"), ("status", "no_show"),
      ("last_call_time", "old")]] 31
    (fun t => if t == "old" then some 0 else none) (fun _ => true) "T"
    [("customer_id", "Y"), ("mobile", "7"), ("status", "no_show"), ("last_call_time", "old")]
    "Y" (by intro r hr; simp at hr; subst hr; decide)
    (by intro r hr; simp at hr; subst hr; rfl)
    (by simp) (by rfl) (by decide) (by rfl)
    (by intro r hr _; simpa using hr)

/-!
## Support lemmas for `send_reservation_email` (claims C3 and C4)
-/

theorem isStrVal_ne (v : Val) (a b : String) (h : isStrVal v a = true) (hab : a ≠ b) :
    isStrVal v b = false := by
  cases v with
  | s x =>
    simp only [isStrVal, beq_iff_eq] at h
    simp only [isStrVal, beq_eq_false_iff_ne]
    rw [h]
    exact hab
  | obj o => rfl

theorem truthy_orV_of_fallback (o : Option Val) (f : Val) (hf : truthy f = true) :
    truthy (orV o f) = true := by
  cases o with
  | none => exact hf
  | some x =>
    by_cases hx : truthy x <;> simp [orV, hx, hf]

theorem secondFill_truthy_top (rdE : Option Val) (name2 : Val) (phone : Val)
    (store : Store) :
    truthy (secondFill (orV rdE (topFill "" "" phone store).1) name2 phone store).1
      = truthy (orV rdE (topFill "" "" phone store).1) := by
  by_cases h : truthy (orV rdE (topFill "" "" phone store).1)
  · rw [h]
    unfold secondFill
    simp [h]
  · simp only [Bool.not_eq_true] at h
    rw [h]
    by_cases hp : truthy phone
    · cases phone with
      | s p =>
        cases hcust : getCustomerByMobile store p with
        | none =>
          unfold secondFill
          simp [h, hp, hcust]
        | some cust =>
          by_cases hemail : getD cust "email" "" = ""
          · unfold secondFill
            simp [h, hp, hcust, hemail]
          · exfalso
            have htop : (topFill "" "" (.s p) store).1 = .s (getD cust "email" "") := by
              unfold topFill
              simp [hp, hcust, hemail]
            have : truthy (orV rdE (topFill "" "" (Val.s p) store).1) = true := by
              apply truthy_orV_of_fallback
              rw [htop]
              simpa [truthy] using hemail
            rw [this] at h
            exact Bool.noConfusion h
      | obj o =>
        unfold secondFill
        simp [h, hp]
    · unfold secondFill
      simp [h, hp]

theorem srCompleted_of_extract_none (email1 : Val) (name1 dp tp pp : String) (phone : Val)
    (cd : Obj) (store : Store) (smtpOk : Bool)
    (h : implExtract cd = none) :
    (∃ e, srCompleted email1 name1 dp tp pp phone cd store smtpOk = .error e)
    ∨ srCompleted email1 name1 dp tp pp phone cd store smtpOk
        = .ok ({ success := false,
                 message := some "No reservation confirmed in this call" }, [])
    ∨ srCompleted email1 name1 dp tp pp phone cd store smtpOk
        = .ok ({ success := false, message := some "Reservation not confirmed" }, []) := by
  unfold srCompleted
  unfold implExtract at h
  split
  · exact Or.inl ⟨_, rfl⟩
  · next cds h1 =>
    rw [h1] at h
    simp only [] at h
    split
    · exact Or.inl ⟨_, rfl⟩
    · next co h2 =>
      rw [h2] at h
      simp only [] at h
      by_cases h3 : optIsStr (lookupV co "outcome") "reservation_confirmed"
      · simp only [h3, not_true_eq_false, if_false, ite_false] at h ⊢
        by_cases h4 : truthy ((lookupV co "reservation_details").getD (.obj []))
        · simp only [h4, not_true_eq_false, if_false, ite_false] at h ⊢
          cases hrdv : (lookupV co "reservation_details").getD (.obj []) with
          | s x =>
            exact Or.inl ⟨_, rfl⟩
          | obj rd =>
            rw [hrdv] at h
            simp only [] at h
            by_cases h5 : optIsStr (lookupV rd "status") "confirmed"
            · rw [if_pos h5] at h
              exact absurd h (by simp)
            · simp [h5]
        · simp [h4]
      · simp [h3]

theorem srCompleted_of_extract_some (email1 : Val) (name1 dp tp pp : String) (phone : Val)
    (cd : Obj) (store : Store) (smtpOk : Bool) (rd : Obj)
    (h : implExtract cd = some rd) :
    srCompleted email1 name1 dp tp pp phone cd store smtpOk
      = .ok (srConfirmedTail email1 name1 dp tp pp phone rd store smtpOk) := by
  unfold srCompleted
  unfold implExtract at h
  split
  · next e h1 => rw [h1] at h; simp at h
  · next cds h1 =>
    rw [h1] at h
    simp only [] at h
    split
    · next e h2 => rw [h2] at h; simp only [] at h; simp at h
    · next co h2 =>
      rw [h2] at h
      simp only [] at h
      by_cases h3 : optIsStr (lookupV co "outcome") "reservation_confirmed"
      · simp only [h3, not_true_eq_false, if_false, ite_false] at h ⊢
        by_cases h4 : truthy ((lookupV co "reservation_details").getD (.obj []))
        · simp only [h4, not_true_eq_false, if_false, ite_false] at h ⊢
          cases hrdv : (lookupV co "reservation_details").getD (.obj []) with
          | s x =>
            rw [hrdv] at h
            simp only [] at h
            exact absurd h (by simp)
          | obj rd2 =>
            rw [hrdv] at h
            simp only [] at h
            by_cases h5 : optIsStr (lookupV rd2 "status") "confirmed"
            · rw [if_pos h5] at h
              simp only [Option.some.injEq] at h
              subst h
              simp [h5]
            · rw [if_neg h5] at h
              exact absurd h (by simp)
        · simp [h4] at h
      · simp [h3] at h

theorem srConfirmedTail_effects (email1 : Val) (name1 : String) (phone : Val) (rd : Obj)
    (store : Store) (smtpOk : Bool) :
    ((srConfirmedTail email1 name1 "" "" "" phone rd store smtpOk).2 ≠ []
      ↔ (truthy (orV (lookupV rd "date") (.s "")) = true
         ∧ truthy (orV (lookupV rd "time") (.s "")) = true
         ∧ truthy (orV (lookupV rd "number_of_people") (.s "")) = true
         ∧ truthy (secondFill (orV (lookupV rd "email") email1)
             (orV (lookupV rd "customer_name") (.s name1)) phone store).1 = true))
    ∧ ((srConfirmedTail email1 name1 "" "" "" phone rd store smtpOk).2 = []
        → (srConfirmedTail email1 name1 "" "" "" phone rd store smtpOk).1.success = false) := by
  simp only [srConfirmedTail]
  split
  · next hcond =>
    refine ⟨?_, fun _ => rfl⟩
    constructor
    · intro hne; exact absurd rfl hne
    · rintro ⟨hd, ht, hp, -⟩
      rcases hcond with h | h | h
      · exact absurd hd h
      · exact absurd ht h
      · exact absurd hp h
  · next hcond =>
    simp only [not_or, not_not] at hcond
    obtain ⟨hd, ht, hp⟩ := hcond
    by_cases he : truthy (secondFill (orV (lookupV rd "email") email1)
        (orV (lookupV rd "customer_name") (.s name1)) phone store).1
    · by_cases hok : smtpOk <;>
        simp [sendEmailAdapter, he, hok, hd, ht, hp]
    · simp [sendEmailAdapter, he, hd, ht, hp]

theorem srData_completed (cd : Obj) (store : Store) (smtpOk : Bool)
    (hstat : isStrVal ((lookupV cd "status").getD (.s "")) "completed" = true) :
    srData "" "" "" "" "" cd store smtpOk
      = (match srCompleted
            (topFill "" "" ((lookupV cd "phone_number").getD (.s "")) store).1
            (topFill "" "" ((lookupV cd "phone_number").getD (.s "")) store).2
            "" "" "" ((lookupV cd "phone_number").getD (.s "")) cd store smtpOk with
         | .ok r => r
         | .error _ => ({ success := false, error := some "Error extracting call data" }, [])) := by
  have hip : isStrVal ((lookupV cd "status").getD (.s "")) "in_progress" = false :=
    isStrVal_ne _ _ _ hstat (by decide)
  simp only [srData]
  rw [if_neg (by simp [hip]), if_pos (by simp [hstat])]

/-!
## Claim C4 — when the email transport is invoked
-/

/-- Counterexample to C4 as stated: a completed call with a confirmed
reservation outcome and non-empty `date`, `time` and `number_of_people` —
the claim says the transport is invoked — yet no recipient email is
resolvable (none in the reservation details, no phone number, empty store),
so `send_reservation_email` returns the tagged failure
`"Email address is required"` (a message the claim does not list) without
handing anything to the SMTP transport. -/
theorem C4_counterexample :
    implExtract cexPayloadNoEmail = some cexRdNoEmail
    ∧ truthy (orV (lookupV cexRdNoEmail "date") (.s "")) = true
    ∧ truthy (orV (lookupV cexRdNoEmail "time") (.s "")) = true
    ∧ truthy (orV (lookupV cexRdNoEmail "number_of_people") (.s "")) = true
    ∧ optIsStr (lookupV cexRdNoEmail "status") "confirmed" = true
    ∧ sendReservationEmail "" "" "" "" "" (some cexPayloadNoEmail) [] true
        = ({ success := false, message := some "Email address is required" }, []) :=
  ⟨rfl, rfl, rfl, rfl, rfl, rfl⟩

/-- C4 (corrected): for a completed-call payload (as the notification job
passes it, with empty parameters), the SMTP transport is invoked iff the
structural extraction yields a confirmed reservation, its `date`, `time` and
`number_of_people` are non-empty after fallback, AND a recipient email is
resolvable (from the reservation details or from the customer store by the
payload's phone number).  Whenever nothing is handed to the transport the
function returns a tagged failure result (`success = false`) — it never
raises. -/
theorem C4_amended_transport_iff (cd : Obj) (store : Store) (smtpOk : Bool)
    (hstat : isStrVal ((lookupV cd "status").getD (.s "")) "completed" = true)
    (hne : cd.isEmpty = false) :
    ((sendReservationEmail "" "" "" "" "" (some cd) store smtpOk).2 ≠ []
      ↔ ∃ rd, implExtract cd = some rd
          ∧ truthy (orV (lookupV rd "date") (.s "")) = true
          ∧ truthy (orV (lookupV rd "time") (.s "")) = true
          ∧ truthy (orV (lookupV rd "number_of_people") (.s "")) = true
          ∧ truthy (resolvedEmail cd rd store) = true)
    ∧ ((sendReservationEmail "" "" "" "" "" (some cd) store smtpOk).2 = []
        → (sendReservationEmail "" "" "" "" "" (some cd) store smtpOk).1.success = false) := by
  have hsre : sendReservationEmail "" "" "" "" "" (some cd) store smtpOk
      = srData "" "" "" "" "" cd store smtpOk := by
    simp [sendReservationEmail, hne]
  rw [hsre, srData_completed cd store smtpOk hstat]
  cases hext : implExtract cd with
  | none =>
    rcases srCompleted_of_extract_none
        (topFill "" "" ((lookupV cd "phone_number").getD (.s "")) store).1
        (topFill "" "" ((lookupV cd "phone_number").getD (.s "")) store).2 "" "" ""
        ((lookupV cd "phone_number").getD (.s "")) cd store smtpOk hext with h | h | h
    · obtain ⟨e, he⟩ := h
      rw [he]
      refine ⟨⟨fun hne2 => absurd rfl hne2, ?_⟩, fun _ => rfl⟩
      rintro ⟨rd, hrd, -⟩
      exact absurd hrd (by simp)
    · rw [h]
      refine ⟨⟨fun hne2 => absurd rfl hne2, ?_⟩, fun _ => rfl⟩
      rintro ⟨rd, hrd, -⟩
      exact absurd hrd (by simp)
    · rw [h]
      refine ⟨⟨fun hne2 => absurd rfl hne2, ?_⟩, fun _ => rfl⟩
      rintro ⟨rd, hrd, -⟩
      exact absurd hrd (by simp)
  | some rd =>
    rw [srCompleted_of_extract_some
        (topFill "" "" ((lookupV cd "phone_number").getD (.s "")) store).1
        (topFill "" "" ((lookupV cd "phone_number").getD (.s "")) store).2 "" "" ""
        ((lookupV cd "phone_number").getD (.s "")) cd store smtpOk rd hext]
    simp only []
    have htail := srConfirmedTail_effects
      (topFill "" "" ((lookupV cd "phone_number").getD (.s "")) store).1
      (topFill "" "" ((lookupV cd "phone_number").getD (.s "")) store).2
      ((lookupV cd "phone_number").getD (.s "")) rd store smtpOk
    have hres : truthy (secondFill
        (orV (lookupV rd "email")
          (topFill "" "" ((lookupV cd "phone_number").getD (.s "")) store).1)
        (orV (lookupV rd "customer_name")
          (.s (topFill "" "" ((lookupV cd "phone_number").getD (.s "")) store).2))
        ((lookupV cd "phone_number").getD (.s "")) store).1
        = truthy (resolvedEmail cd rd store) := by
      rw [resolvedEmail]
      exact secondFill_truthy_top (lookupV rd "email") _ _ store
    refine ⟨?_, htail.2⟩
    rw [htail.1]
    constructor
    · rintro ⟨hd, ht, hp, he⟩
      rw [hres] at he
      exact ⟨rd, rfl, hd, ht, hp, he⟩
    · rintro ⟨rd2, hrd2, hd, ht, hp, he⟩
      rw [Option.some.injEq] at hrd2
      subst hrd2
      rw [← hres] at he
      exact ⟨hd, ht, hp, he⟩

/-- Witness for the amended C4 at the concrete payload with no resolvable
email: the iff correctly reports that the transport is not invoked. -/
theorem C4_amended_witness :
    ((sendReservationEmail "" "" "" "" "" (some cexPayloadNoEmail) [] true).2 ≠ []
      ↔ ∃ rd, implExtract cexPayloadNoEmail = some rd
          ∧ truthy (orV (lookupV rd "date") (.s "")) = true
          ∧ truthy (orV (lookupV rd "time") (.s "")) = true
          ∧ truthy (orV (lookupV rd "number_of_people") (.s "")) = true
          ∧ truthy (resolvedEmail cexPayloadNoEmail rd []) = true)
    ∧ ((sendReservationEmail "" "" "" "" "" (some cexPayloadNoEmail) [] true).2 = []
        → (sendReservationEmail "" "" "" "" "" (some cexPayloadNoEmail) [] true).1.success
            = false) :=
  C4_amended_transport_iff cexPayloadNoEmail [] true rfl rfl

/-!
## Claim C3 — outcome extraction has no inference fallback
-/

/-- Counterexample to C3: on a completed payload with no reservation details
anywhere, the spec's two-stage pipeline — whose stage 2 sends the payload to
an external natural-language extraction service, here an oracle answering
with a fully confirmed outcome — recovers an outcome; the code, which has no
second stage at all (no call to any extraction service exists in the
repository), extracts nothing and returns the tagged
`"No reservation confirmed in this call"` failure without any external
interaction. -/
theorem C3_counterexample :
    specTwoStageExtract (fun _ => some ⟨"2024-01-01", "19:00", "4", "confirmed"⟩)
        cexPayloadNoRD = some ⟨"2024-01-01", "19:00", "4", "confirmed"⟩
    ∧ implExtract cexPayloadNoRD = none
    ∧ sendReservationEmail "" "" "" "" "" (some cexPayloadNoRD) [] true
        = ({ success := false, message := some "No reservation confirmed in this call" }, []) :=
  ⟨rfl, rfl, rfl⟩

/-- C3 (corrected): outcome extraction is the single structural pass
`implExtract` at the fixed nested path
`call_details → callOutcomesData → reservation_details` guarded by
`outcome == "reservation_confirmed"`; there is no generic recursive search
and no natural-language fallback.  Whenever the structural pass yields
nothing on a completed payload, `send_reservation_email` returns a tagged
failure — one of the two not-found messages, or the caught-extraction-error
result — with nothing handed to the email transport and without raising. -/
theorem C3_amended_structural_only (cd : Obj) (store : Store) (smtpOk : Bool)
    (hstat : isStrVal ((lookupV cd "status").getD (.s "")) "completed" = true)
    (hne : cd.isEmpty = false)
    (hmiss : implExtract cd = none) :
    (sendReservationEmail "" "" "" "" "" (some cd) store smtpOk).1.success = false
    ∧ (sendReservationEmail "" "" "" "" "" (some cd) store smtpOk).2 = []
    ∧ ((sendReservationEmail "" "" "" "" "" (some cd) store smtpOk).1.message
          = some "No reservation confirmed in this call"
       ∨ (sendReservationEmail "" "" "" "" "" (some cd) store smtpOk).1.message
          = some "Reservation not confirmed"
       ∨ (sendReservationEmail "" "" "" "" "" (some cd) store smtpOk).1.error
          = some "Error extracting call data") := by
  have hsre : sendReservationEmail "" "" "" "" "" (some cd) store smtpOk
      = srData "" "" "" "" "" cd store smtpOk := by
    simp [sendReservationEmail, hne]
  rw [hsre, srData_completed cd store smtpOk hstat]
  rcases srCompleted_of_extract_none
      (topFill "" "" ((lookupV cd "phone_number").getD (.s "")) store).1
      (topFill "" "" ((lookupV cd "phone_number").getD (.s "")) store).2 "" "" ""
      ((lookupV cd "phone_number").getD (.s "")) cd store smtpOk hmiss with h | h | h
  · obtain ⟨e, he⟩ := h
    rw [he]
    exact ⟨rfl, rfl, Or.inr (Or.inr rfl)⟩
  · rw [h]
    exact ⟨rfl, rfl, Or.inl rfl⟩
  · rw [h]
    exact ⟨rfl, rfl, Or.inr (Or.inl rfl)⟩

/-- Witness for the amended C3 at the concrete no-reservation payload. -/
theorem C3_amended_witness :
    (sendReservationEmail "" "" "" "" "" (some cexPayloadNoRD) [] true).1.success = false
    ∧ (sendReservationEmail "" "" "" "" "" (some cexPayloadNoRD) [] true).2 = []
    ∧ ((sendReservationEmail "" "" "" "" "" (some cexPayloadNoRD) [] true).1.message
          = some "No reservation confirmed in this call"
       ∨ (sendReservationEmail "" "" "" "" "" (some cexPayloadNoRD) [] true).1.message
          = some "Reservation not confirmed"
       ∨ (sendReservationEmail "" "" "" "" "" (some cexPayloadNoRD) [] true).1.error
          = some "Error extracting call data") :=
  C3_amended_structural_only cexPayloadNoRD [] true rfl rfl rfl
